import Mathlib

/-!
Shallow embedding of the `wakers` crate (src/lib.rs): a single-slot waker
store `WakerQueue` with coalescing registration, plus two sharing adapters,
`SendWakers` (interior mutability through an `UnsafeCell`, relying on the
absence of `Sync`) and `SyncWakers` (a `Mutex`-guarded store).

Modelling choices:
* `core::task::Waker` is opaque; `Waker::will_wake` in the standard library
  compares the underlying `RawWaker` (data pointer and vtable), so two
  handles with `will_wake = true` are indistinguishable in every observable
  way.  We therefore model a waker by that raw content (`raw : Nat`),
  `will_wake` as equality of the raw content, and `clone` as the identity
  (a well-behaved clone duplicates the raw waker).
* Invocations are recorded in an event list: `WakeEvent.wake w` is the
  consuming invocation `w.wake()`, `WakeEvent.wakeByRef w` the
  non-consuming `w.wake_by_ref()`.  Mutating operations (`&mut self`, or
  `&self` through an `UnsafeCell`/`Mutex`) return the updated state paired
  with the events fired; `WakerQueue.wake_by_ref` takes `&self` with no
  interior mutability, so it returns only the events.
* `std::sync::Mutex` is modelled with an explicit poison flag; operations
  that `unwrap()` a lock result return `Option` and yield `none` exactly
  when the Rust code would panic on a poisoned lock.
* The compile-time feature gates (lines 1-8 of src/lib.rs) are modelled by
  a `Features` record and a `crateBuild` function: the `slab` feature hits
  `compile_error!("TODO slab support")`.
-/

namespace WakersRs

/-- Model of `core::task::Waker`: identified by the content of its
`RawWaker` (data pointer plus vtable), the only observable identity the
standard library exposes. -/
structure Waker where
  raw : Nat
deriving DecidableEq

/-- `Waker::will_wake`: equality of the underlying raw waker. -/
def Waker.will_wake (w other : Waker) : Bool :=
  w.raw == other.raw

/-- `Waker::clone`: duplicates the handle (same raw waker). -/
def Waker.clone (w : Waker) : Waker := w

/-- An observable invocation of a waker handle: consuming (`wake`) or
non-consuming (`wake_by_ref`). -/
inductive WakeEvent where
  | wake (w : Waker)
  | wakeByRef (w : Waker)
deriving DecidableEq

/-- `WakerQueue`: the single-slot store, `waker: Option<Waker>`. -/
structure WakerQueue where
  waker : Option Waker
deriving DecidableEq

/-- `WakerQueue::new` / `Default`: the empty slot. -/
def WakerQueue.new : WakerQueue := ⟨none⟩

/-- `WakerQueue::pend` (the `WakersMut` impl, src/lib.rs:30-42): if the
stored handle `will_wake`s the argument, return unchanged; otherwise take
and consume-wake any stored handle, then store a clone of the argument. -/
def WakerQueue.pend (q : WakerQueue) (waker : Waker) : WakerQueue × List WakeEvent :=
  match q.waker with
  | some w =>
    if w.will_wake waker then
      (q, [])
    else
      (⟨some waker.clone⟩, [WakeEvent.wake w])
  | none => (⟨some waker.clone⟩, [])

/-- `WakerQueue::wake` (src/lib.rs:44-48): `self.waker.take()` and
consume-wake it if present. -/
def WakerQueue.wake (q : WakerQueue) : WakerQueue × List WakeEvent :=
  match q.waker with
  | some w => (⟨none⟩, [WakeEvent.wake w])
  | none => (⟨none⟩, [])

/-- `WakerQueue::wake_by_ref` (src/lib.rs:51-57): `&self`, no interior
mutability, so the slot cannot change; fires the stored handle by
reference if present. -/
def WakerQueue.wake_by_ref (q : WakerQueue) : List WakeEvent :=
  match q.waker with
  | some w => [WakeEvent.wakeByRef w]
  | none => []

/-- The `WakersMut` trait: `pend(&mut self, waker)` and `wake(&mut self)`. -/
class WakersMut (W : Type) where
  pend : W → Waker → W × List WakeEvent
  wake : W → W × List WakeEvent

instance : WakersMut WakerQueue := ⟨WakerQueue.pend, WakerQueue.wake⟩

/-- `SendWakers<W>`: an `UnsafeCell<W>` wrapper (src/lib.rs:74-85). -/
structure SendWakers (W : Type) where
  wakers : W

/-- `SendWakers::new`. -/
def SendWakers.new {W : Type} (wakers : W) : SendWakers W := ⟨wakers⟩

/-- `SendWakers::get_mut`. -/
def SendWakers.get_mut {W : Type} (s : SendWakers W) : W := s.wakers

/-- `SendWakers::into_inner`: `ptr::read` of the cell then `mem::forget`,
i.e. return the inner value. -/
def SendWakers.into_inner {W : Type} (s : SendWakers W) : W := s.wakers

/-- `impl WakersMut for SendWakers<W>`: `pend` via `get_mut`. -/
def SendWakers.pend {W : Type} [WakersMut W] (s : SendWakers W) (waker : Waker) :
    SendWakers W × List WakeEvent :=
  let r := WakersMut.pend s.wakers waker
  (⟨r.1⟩, r.2)

/-- `impl WakersMut for SendWakers<W>`: `wake` via `get_mut`. -/
def SendWakers.wake {W : Type} [WakersMut W] (s : SendWakers W) :
    SendWakers W × List WakeEvent :=
  let r := WakersMut.wake s.wakers
  (⟨r.1⟩, r.2)

/-- `impl WakersRef for SendWakers<W>` (src/lib.rs:155-160): `wake_by_ref`
delegates to the inner store's consuming `wake()` through the cell. -/
def SendWakers.wake_by_ref {W : Type} [WakersMut W] (s : SendWakers W) :
    SendWakers W × List WakeEvent :=
  let r := WakersMut.wake s.wakers
  (⟨r.1⟩, r.2)

/-- `impl Wakers for SendWakers<W>` (src/lib.rs:162-167): `pend_by_ref`
delegates to the inner store's `pend` through the cell. -/
def SendWakers.pend_by_ref {W : Type} [WakersMut W] (s : SendWakers W) (waker : Waker) :
    SendWakers W × List WakeEvent :=
  let r := WakersMut.pend s.wakers waker
  (⟨r.1⟩, r.2)

/-- Model of `std::sync::Mutex<W>`: the guarded value plus a poison flag.
`lock()`/`get_mut()`/`into_inner()` report an error exactly when the flag
is set. -/
structure Mutex (W : Type) where
  data : W
  poisoned : Bool

/-- `Mutex::new`: freshly created locks are not poisoned. -/
def Mutex.new {W : Type} (w : W) : Mutex W := ⟨w, false⟩

/-- `SyncWakers<W>`: a `Mutex<W>` wrapper (src/lib.rs:178-181). -/
structure SyncWakers (W : Type) where
  wakers : Mutex W

/-- `SyncWakers::new`. -/
def SyncWakers.new {W : Type} (wakers : W) : SyncWakers W := ⟨Mutex.new wakers⟩

/-- `SyncWakers::get_mut`: `self.wakers.get_mut().unwrap()`; `none` models
the panic on a poisoned lock. -/
def SyncWakers.get_mut {W : Type} (s : SyncWakers W) : Option W :=
  if s.wakers.poisoned then none else some s.wakers.data

/-- `SyncWakers::into_inner`: `self.wakers.into_inner().unwrap()`; `none`
models the panic on a poisoned lock. -/
def SyncWakers.into_inner {W : Type} (s : SyncWakers W) : Option W :=
  if s.wakers.poisoned then none else some s.wakers.data

/-- `impl Wakers for SyncWakers<W>` (src/lib.rs:228-233): `pend_by_ref`
is `self.wakers.lock().unwrap().pend(waker)`; `none` models the panic on
a poisoned lock. -/
def SyncWakers.pend_by_ref {W : Type} [WakersMut W] (s : SyncWakers W) (waker : Waker) :
    Option (SyncWakers W × List WakeEvent) :=
  if s.wakers.poisoned then none
  else
    let r := WakersMut.pend s.wakers.data waker
    some (⟨⟨r.1, false⟩⟩, r.2)

/-- `impl WakersRef for SyncWakers<W>` (src/lib.rs:235-240): `wake_by_ref`
is `self.wakers.lock().unwrap().wake()` — the consuming `wake` of the
inner store; `none` models the panic on a poisoned lock. -/
def SyncWakers.wake_by_ref {W : Type} [WakersMut W] (s : SyncWakers W) :
    Option (SyncWakers W × List WakeEvent) :=
  if s.wakers.poisoned then none
  else
    let r := WakersMut.wake s.wakers.data
    some (⟨⟨r.1, false⟩⟩, r.2)

/-- The crate's cargo features, resolved at compile time. -/
structure Features where
  std : Bool
  const_default : Bool
  slab : Bool

/-- Outcome of compiling the crate under a feature selection. -/
inductive BuildOutcome where
  | builds
  | compileError (msg : String)
deriving DecidableEq

/-- Embedding of the `cfg`-gated `compile_error!` at src/lib.rs:3-4: the
`slab` feature aborts the build with a message, every other selection
compiles. -/
def crateBuild (f : Features) : BuildOutcome :=
  if f.slab then BuildOutcome.compileError "TODO slab support" else BuildOutcome.builds

/- ## Helper lemmas -/

lemma Waker.will_wake_iff {w h : Waker} : w.will_wake h = true ↔ w = h := by
  cases w
  cases h
  simp [Waker.will_wake]

lemma Waker.will_wake_self (w : Waker) : w.will_wake w = true := by
  simp [Waker.will_wake]

lemma WakerQueue.pend_slot (q : WakerQueue) (h : Waker) :
    ((q.pend h).1).waker = some h := by
  unfold WakerQueue.pend
  cases hq : q.waker with
  | none => simp [Waker.clone]
  | some w =>
    by_cases hw : w.will_wake h
    · obtain rfl := Waker.will_wake_iff.mp hw
      simp [hq, Waker.will_wake_self]
    · simp [hw, Waker.clone]

lemma WakerQueue.pend_coalesce {q : WakerQueue} {h w : Waker}
    (hq : q.waker = some w) (hw : w.will_wake h = true) :
    q.pend h = (q, []) := by
  unfold WakerQueue.pend
  simp [hq, hw]

lemma WakerQueue.pend_evict {q : WakerQueue} {h w : Waker}
    (hq : q.waker = some w) (hw : w.will_wake h = false) :
    q.pend h = (⟨some h.clone⟩, [WakeEvent.wake w]) := by
  unfold WakerQueue.pend
  simp [hq, hw]

lemma WakerQueue.pend_empty {q : WakerQueue} {h : Waker} (hq : q.waker = none) :
    q.pend h = (⟨some h.clone⟩, []) := by
  unfold WakerQueue.pend
  simp [hq]

lemma WakerQueue.wake_some {q : WakerQueue} {w : Waker} (hq : q.waker = some w) :
    q.wake = (⟨none⟩, [WakeEvent.wake w]) := by
  unfold WakerQueue.wake
  simp [hq]

lemma WakerQueue.wake_fst (q : WakerQueue) : (q.wake).1 = ⟨none⟩ := by
  rcases q with ⟨_ | w⟩ <;> rfl

lemma WakerQueue.pend_events_count (q : WakerQueue) (h : Waker) :
    ((q.pend h).2).count (WakeEvent.wake h) = 0 := by
  cases hq : q.waker with
  | none => simp [WakerQueue.pend_empty hq]
  | some w =>
    by_cases hw : w.will_wake h
    · simp [WakerQueue.pend_coalesce hq hw]
    · have hwne : w ≠ h := by
        intro e
        rw [e, Waker.will_wake_self] at hw
        exact hw rfl
      simp [WakerQueue.pend_evict hq (Bool.eq_false_iff.mpr hw), List.count_cons,
        hwne, Ne.symm hwne]

/- ## Claim theorems -/

/-- Claim C1, counterexample: `SendWakers::wake_by_ref` on an adapter whose
inner slot is occupied does not leave the slot occupied — refuting the
claim that `fireByRef` notifies without consuming the stored handle. -/
theorem send_wake_by_ref_refutes_preservation :
    ((SendWakers.new (WakerQueue.mk (some ⟨0⟩))).wake_by_ref).1.wakers.waker ≠ some ⟨0⟩ := by
  decide

/-- Claim C1, amended: for both adapters, `wake_by_ref` on an inner slot
`Occupied(h)` delegates to the store's consuming `wake()`: it notifies `h`
via the consuming invocation and leaves the inner slot empty. -/
theorem adapter_wake_by_ref_consumes (h : Waker) :
    (SendWakers.new (WakerQueue.mk (some h))).wake_by_ref
      = (SendWakers.new (WakerQueue.mk none), [WakeEvent.wake h])
    ∧ (SyncWakers.new (WakerQueue.mk (some h))).wake_by_ref
      = some (SyncWakers.new (WakerQueue.mk none), [WakeEvent.wake h]) :=
  ⟨rfl, rfl⟩

/-- Claim C2: from every slot state, `pend h1` then `pend h2` with
`h1.will_wake h2 = false` fires the consuming invocation of `h1` exactly
once across the two calls and leaves the slot holding a clone of `h2`. -/
theorem pend_eviction_wakes (q : WakerQueue) (h1 h2 : Waker)
    (hne : h1.will_wake h2 = false) :
    (((q.pend h1).2 ++ (((q.pend h1).1).pend h2).2).count (WakeEvent.wake h1)) = 1
    ∧ (((q.pend h1).1).pend h2).1.waker = some h2.clone := by
  have hs := WakerQueue.pend_slot q h1
  have h2nd := WakerQueue.pend_evict hs hne
  refine ⟨?_, by rw [h2nd]⟩
  rw [h2nd]
  simp [List.count_append, WakerQueue.pend_events_count]

/-- Claim C2 witness at `q = Occupied(5)`, `h1 = 0`, `h2 = 1`. -/
theorem pend_eviction_wakes_witness :
    (Waker.mk 0).will_wake ⟨1⟩ = false
    ∧ (((((⟨some ⟨5⟩⟩ : WakerQueue).pend ⟨0⟩).2
          ++ ((((⟨some ⟨5⟩⟩ : WakerQueue).pend ⟨0⟩).1).pend ⟨1⟩).2).count
            (WakeEvent.wake ⟨0⟩)) = 1
        ∧ ((((⟨some ⟨5⟩⟩ : WakerQueue).pend ⟨0⟩).1).pend ⟨1⟩).1.waker
            = some (Waker.clone ⟨1⟩)) :=
  ⟨by decide, pend_eviction_wakes ⟨some ⟨5⟩⟩ ⟨0⟩ ⟨1⟩ (by decide)⟩

/-- Claim C3: two `pend` calls whose handles target the same logical waiter
(`will_wake` true) perform no eviction-wake on the second call: it fires no
event and leaves the slot unchanged, occupied by the single stored handle. -/
theorem pend_twice_same_waiter (q : WakerQueue) (h1 h2 : Waker)
    (hsame : h1.will_wake h2 = true) :
    (((q.pend h1).1).pend h2).2 = []
    ∧ (((q.pend h1).1).pend h2).1 = (q.pend h1).1
    ∧ (((q.pend h1).1).pend h2).1.waker = some h1 := by
  have hs := WakerQueue.pend_slot q h1
  have hc := WakerQueue.pend_coalesce hs hsame
  exact ⟨by rw [hc], by rw [hc], by rw [hc]; exact hs⟩

/-- Claim C3 witness at `q` empty, `h1 = h2 = 0`. -/
theorem pend_twice_same_waiter_witness :
    (Waker.mk 0).will_wake ⟨0⟩ = true
    ∧ (((((⟨none⟩ : WakerQueue).pend ⟨0⟩).1).pend ⟨0⟩).2 = []
        ∧ ((((⟨none⟩ : WakerQueue).pend ⟨0⟩).1).pend ⟨0⟩).1
            = ((⟨none⟩ : WakerQueue).pend ⟨0⟩).1
        ∧ ((((⟨none⟩ : WakerQueue).pend ⟨0⟩).1).pend ⟨0⟩).1.waker = some ⟨0⟩) :=
  ⟨by decide, pend_twice_same_waiter ⟨none⟩ ⟨0⟩ ⟨0⟩ (by decide)⟩

/-- Claim C4: after `pend h; wake; wake` from any starting state, the
second `wake` is a no-op (same state, no events), the slot ends empty, and
the consuming invocation of `h` fires exactly once over the whole run. -/
theorem fire_consume_idempotent (q : WakerQueue) (h : Waker) :
    ((((q.pend h).1).wake).1).wake = ((((q.pend h).1).wake).1, [])
    ∧ (((q.pend h).1).wake).1.waker = none
    ∧ (((q.pend h).2 ++ (((q.pend h).1).wake).2
          ++ (((((q.pend h).1).wake).1).wake).2).count (WakeEvent.wake h)) = 1 := by
  have hs := WakerQueue.pend_slot q h
  have hw1 := WakerQueue.wake_some hs
  refine ⟨by rw [hw1]; rfl, by rw [hw1], ?_⟩
  rw [hw1]
  simp [List.count_append, WakerQueue.pend_events_count, WakerQueue.wake]

/-- Claim C5: after `pend h`, `wake_by_ref` fires the non-consuming
invocation of the stored handle; the operation takes the queue immutably
(no state component in its result, mirroring `&self` without interior
mutability), so the slot still holds `h` afterwards, and a second call
fires the same invocation again. -/
theorem fire_shared_repeatable (q : WakerQueue) (h : Waker) :
    ((q.pend h).1).waker = some h
    ∧ ((q.pend h).1).wake_by_ref = [WakeEvent.wakeByRef h]
    ∧ ((q.pend h).1).wake_by_ref ++ ((q.pend h).1).wake_by_ref
        = [WakeEvent.wakeByRef h, WakeEvent.wakeByRef h] := by
  have hs := WakerQueue.pend_slot q h
  refine ⟨hs, ?_, ?_⟩ <;> simp [WakerQueue.wake_by_ref, hs]

/-- Claim C6: `new` followed by `into_inner` returns the original store for
both adapters (for `SyncWakers`, a fresh lock is unpoisoned, so the unwrap
succeeds). -/
theorem adapters_roundtrip (W : Type) (w : W) :
    (SendWakers.new w).into_inner = w ∧ (SyncWakers.new w).into_inner = some w :=
  ⟨rfl, rfl⟩

/-- Claim C7: on a poisoned lock, `SyncWakers::pend_by_ref` and
`wake_by_ref` panic (modelled as `none`) instead of proceeding against the
slot; they never return normally. -/
theorem sync_poisoned_escalates (W : Type) [WakersMut W] (s : SyncWakers W) (h : Waker)
    (hp : s.wakers.poisoned = true) :
    s.pend_by_ref h = none ∧ s.wake_by_ref = none := by
  unfold SyncWakers.pend_by_ref SyncWakers.wake_by_ref
  simp [hp]

/-- Claim C7 witness at a concrete poisoned `SyncWakers WakerQueue`. -/
theorem sync_poisoned_escalates_witness :
    (SyncWakers.mk ⟨WakerQueue.new, true⟩ : SyncWakers WakerQueue).wakers.poisoned = true
    ∧ ((SyncWakers.mk ⟨WakerQueue.new, true⟩ : SyncWakers WakerQueue).pend_by_ref ⟨0⟩ = none
        ∧ (SyncWakers.mk ⟨WakerQueue.new, true⟩ : SyncWakers WakerQueue).wake_by_ref = none) :=
  ⟨rfl, sync_poisoned_escalates WakerQueue ⟨⟨WakerQueue.new, true⟩⟩ ⟨0⟩ rfl⟩

/-- Claim C8: `wake` and `wake_by_ref` on the empty slot fire nothing,
return normally, and leave the slot empty. -/
theorem fire_on_empty_noop :
    WakerQueue.new.wake = (WakerQueue.new, [])
    ∧ WakerQueue.new.wake_by_ref = [] :=
  ⟨rfl, rfl⟩

/-- Claim C9: selecting the `slab` feature makes the build fail with the
`compile_error!` message, under any setting of the other features; without
it the crate builds. -/
theorem slab_feature_fails_build (s c : Bool) :
    crateBuild ⟨s, c, true⟩ = BuildOutcome.compileError "TODO slab support"
    ∧ crateBuild ⟨s, c, false⟩ = BuildOutcome.builds :=
  ⟨rfl, rfl⟩

/-- Claim C10: when `pend` coalesces (the stored handle `will_wake`s the
incoming one) the call returns the slot exactly as it was — still holding
the originally stored handle — and fires no invocation. -/
theorem pend_coalescing_frame (q : WakerQueue) (h w : Waker)
    (hq : q.waker = some w) (hw : w.will_wake h = true) :
    q.pend h = (q, []) :=
  WakerQueue.pend_coalesce hq hw

/-- Claim C10 witness at `q = Occupied(0)`, `h = 0`. -/
theorem pend_coalescing_frame_witness :
    ((⟨some ⟨0⟩⟩ : WakerQueue).waker = some ⟨0⟩ ∧ (Waker.mk 0).will_wake ⟨0⟩ = true)
    ∧ (⟨some ⟨0⟩⟩ : WakerQueue).pend ⟨0⟩ = (⟨some ⟨0⟩⟩, []) :=
  ⟨⟨rfl, by decide⟩, pend_coalescing_frame ⟨some ⟨0⟩⟩ ⟨0⟩ ⟨0⟩ rfl (by decide)⟩

end WakersRs
